import Mathlib

/-!
Verification of the strategy-dispatch and history-management core of the
conversational client in `strategy.py`.

The Python module manipulates plain dictionaries.  We embed the dictionary
shapes that actually occur as an inductive type `Dyn`: role-tagged messages
(whose content is either a plain string or a list of typed parts) and the
structured error results `{"error": ...}` returned by the image strategy.

The two external collaborators are passed in as parameters:
* `Complete` models `client.chat.complete` — given a model identifier and the
  ordered message list it returns the first choice's message content string;
* `ReadFile` models opening an image file and reading its bytes — `none`
  models an exception (file not found, permission, I/O error), `some bytes`
  a successful read.

Each strategy's `execute` is translated statement by statement; its value is
an `ExecResult` recording, besides the returned dictionary, two pieces of
instrumentation that the frame/side-effect claims are about: how many
outbound calls to the endpoint the taken code path performs, and the state of
the caller-supplied `history` object after the call (the source performs no
mutating operation on `history`: it only reads it via `messages.extend`).
-/

namespace StrategyPy

/-- One typed part of a multimodal message content list: either
a dictionary with keys type=text, text=t, or a dictionary with keys
type=image_url, image_url=u. -/
inductive Part where
  | text (t : String)
  | image_url (u : String)
deriving DecidableEq

/-- The content field of a message dictionary: a plain string or a list of
typed parts. -/
inductive Content where
  | str (s : String)
  | parts (ps : List Part)
deriving DecidableEq

/-- A Python dictionary as it occurs in this module: a role-tagged message
with a role and content field, or an error result with a single error key. -/
inductive Dyn where
  | msg (role : String) (content : Content)
  | err (error : String)
deriving DecidableEq

/-- A result dictionary is a success when it is a role-tagged message rather
than an error result. -/
def Dyn.isSuccess : Dyn → Bool
  | .msg _ _ => true
  | .err _ => false

/-- The external chat-completion endpoint: model identifier and ordered
message list in, reply content string out. -/
abbrev Complete := String → List Dyn → String

/-- The external filesystem: path in, file bytes out, or none when opening
or reading raises. -/
abbrev ReadFile := String → Option (List Nat)

/-- The value of one strategy `execute` call, with instrumentation for
side-effect claims: the dictionary the Python function returns, the number
of outbound `client.chat.complete` calls the taken path performs, and the
caller's `history` object after the call. -/
structure ExecResult where
  result : Dyn
  outboundCalls : Nat
  historyAfter : Option (List Dyn)
deriving DecidableEq

/-- The base64 alphabet character for a 6-bit value (RFC 4648, as used by
Python's `base64.b64encode`). -/
def b64Char (n : Nat) : Char :=
  if n < 26 then Char.ofNat (65 + n)
  else if n < 52 then Char.ofNat (97 + (n - 26))
  else if n < 62 then Char.ofNat (48 + (n - 52))
  else if n = 62 then '+'
  else '/'

/-- Standard base64 encoding of a byte list, three bytes per four output
characters, padded with = (RFC 4648). -/
def b64encodeGroups : List Nat → List Char
  | [] => []
  | [b1] => [b64Char (b1 / 4), b64Char (b1 % 4 * 16), '=', '=']
  | [b1, b2] => [b64Char (b1 / 4), b64Char (b1 % 4 * 16 + b2 / 16), b64Char (b2 % 16 * 4), '=']
  | b1 :: b2 :: b3 :: rest =>
      b64Char (b1 / 4) :: b64Char (b1 % 4 * 16 + b2 / 16) ::
      b64Char (b2 % 16 * 4 + b3 / 64) :: b64Char (b3 % 64) :: b64encodeGroups rest

/-- `base64.b64encode(bytes).decode('utf-8')`. -/
def b64encode (bytes : List Nat) : String :=
  String.mk (b64encodeGroups bytes)

/-- Python truthiness of the `history` argument (default None): falsy when
None or the empty list. -/
def truthyList : Option (List Dyn) → Bool
  | none => false
  | some [] => false
  | some (_ :: _) => true

/-- `TextRequestStrategy`: holds the credential (the `Mistral` client it
constructs is the `Complete` collaborator passed to `execute`). -/
structure TextRequestStrategy where
  api_key : String
deriving DecidableEq

/-- `TextRequestStrategy.execute`: starts from an empty `messages` list,
extends it with `history` when that is truthy, appends the new user message,
issues one `client.chat.complete` call and wraps the reply as an assistant
message. -/
def TextRequestStrategy.execute (s : TextRequestStrategy) (complete : Complete)
    (text model : String) (history : Option (List Dyn)) (image_path : Option String) :
    ExecResult :=
  let messages : List Dyn := []
  let messages := if truthyList history then messages ++ history.getD [] else messages
  let messages := messages ++ [Dyn.msg "user" (Content.str text)]
  { result := Dyn.msg "assistant" (Content.str (complete model messages))
    outboundCalls := 1
    historyAfter := history }

/-- `ImageRequestStrategy`: holds the credential. -/
structure ImageRequestStrategy where
  api_key : String
deriving DecidableEq

/-- `ImageRequestStrategy.__encode_image`: reads the file's bytes and
base64-encodes them; any exception while opening or reading is caught and
yields the empty string. -/
def ImageRequestStrategy.encode_image (s : ImageRequestStrategy) (readFile : ReadFile)
    (image_path : String) : String :=
  match readFile image_path with
  | some bytes => b64encode bytes
  | none => ""

/-- `ImageRequestStrategy.execute`: returns an error result when
`image_path` is falsy (None or empty); encodes the image and returns an
error result when the encoding is empty; otherwise builds a single user
message carrying the text part and the data-URL image part (no history),
issues one `client.chat.complete` call and wraps the reply as an assistant
message. -/
def ImageRequestStrategy.execute (s : ImageRequestStrategy) (complete : Complete)
    (readFile : ReadFile) (text model : String) (history : Option (List Dyn))
    (image_path : Option String) : ExecResult :=
  match image_path with
  | none =>
      { result := Dyn.err "Image path is required for ImageRequestStrategy."
        outboundCalls := 0
        historyAfter := history }
  | some p =>
      if p = "" then
        { result := Dyn.err "Image path is required for ImageRequestStrategy."
          outboundCalls := 0
          historyAfter := history }
      else
        let base64_image := s.encode_image readFile p
        if base64_image = "" then
          { result := Dyn.err "Failed to encode image."
            outboundCalls := 0
            historyAfter := history }
        else
          let messages : List Dyn :=
            [Dyn.msg "user" (Content.parts
              [Part.text text,
               Part.image_url ("data:image/jpeg;base64," ++ base64_image)])]
          { result := Dyn.msg "assistant" (Content.str (complete model messages))
            outboundCalls := 1
            historyAfter := history }

/-- The strategy hierarchy as a tagged variant: the two concrete subclasses
of the abstract `RequestStrategy`. -/
inductive RequestStrategy where
  | text (s : TextRequestStrategy)
  | image (s : ImageRequestStrategy)
deriving DecidableEq

/-- Dynamic dispatch of `execute` on the concrete strategy class. -/
def RequestStrategy.execute (s : RequestStrategy) (complete : Complete)
    (readFile : ReadFile) (text model : String) (history : Option (List Dyn))
    (image_path : Option String) : ExecResult :=
  match s with
  | .text ts => ts.execute complete text model history image_path
  | .image is_ => is_.execute complete readFile text model history image_path

/-- `MistralRequestContext`: holds exactly one active strategy. -/
structure MistralRequestContext where
  strategy : RequestStrategy
deriving DecidableEq

/-- `MistralRequestContext.execute_strategy`: pure forwarding to the active
strategy's `execute`. -/
def MistralRequestContext.execute_strategy (c : MistralRequestContext)
    (complete : Complete) (readFile : ReadFile) (text model : String)
    (history : Option (List Dyn)) (image_path : Option String) : ExecResult :=
  c.strategy.execute complete readFile text model history image_path

/-- The model registry dictionary built in `ChatFacade.__init__`; only the
keys text and image are ever looked up. -/
def initModels : String → List String
  | "text" => ["mistral-large-latest"]
  | "image" => ["pixtral-12b-2409"]
  | _ => []

/-- `ChatFacade` state: credential, model registry, the two pre-constructed
strategy instances, the active request context, the active model identifier
and the ordered history of (prompt, message) pairs. -/
structure ChatFacade where
  api_key : String
  models : String → List String
  text_strategy : TextRequestStrategy
  image_strategy : ImageRequestStrategy
  request_context : MistralRequestContext
  model : String
  history : List (String × Dyn)

/-- The strategy kind used to index the registry in `select_model`:
text when the active strategy is an instance of `TextRequestStrategy`,
image otherwise. -/
def modelTypeOf (c : MistralRequestContext) : String :=
  match c.strategy with
  | .text _ => "text"
  | .image _ => "image"

/-- `ChatFacade.select_model`: the console input is the parameter `chosen`;
raises ValueError (modelled as `Except.error`) when `chosen` is not in the
registry list for the active strategy kind, otherwise returns it.  The
method performs no write to the session, so the facade is returned
unchanged in either case. -/
def ChatFacade.select_model (f : ChatFacade) (chosen : String) :
    Except String String × ChatFacade :=
  let model_type := modelTypeOf f.request_context
  if chosen ∉ f.models model_type then (Except.error "Неверная модель", f)
  else (Except.ok chosen, f)

/-- `ChatFacade.change_strategy`: rebuilds the request context around the
matching pre-constructed strategy instance, or raises ValueError. -/
def ChatFacade.change_strategy (f : ChatFacade) (strategy_type : String) :
    Except String ChatFacade :=
  if strategy_type = "text" then
    Except.ok { f with request_context := ⟨RequestStrategy.text f.text_strategy⟩ }
  else if strategy_type = "image" then
    Except.ok { f with request_context := ⟨RequestStrategy.image f.image_strategy⟩ }
  else
    Except.error "Неверный тип стратегии. Выберите 'text' или 'image'."

/-- `ChatFacade.ask_question`: snapshots the current history's messages,
delegates to the request context, appends the user message and the response
to history (both tagged with the originating prompt) and returns the
response. -/
def ChatFacade.ask_question (f : ChatFacade) (complete : Complete)
    (readFile : ReadFile) (text model : String) (image_path : Option String) :
    Dyn × ChatFacade :=
  let current_history := f.history.map (fun p => p.2)
  let r := f.request_context.execute_strategy complete readFile text model
    (some current_history) image_path
  let response := r.result
  (response,
   { f with history :=
      f.history ++ [(text, Dyn.msg "user" (Content.str text)), (text, response)] })

/-- `ChatFacade.get_history`: the ordered list of (prompt, message) pairs. -/
def ChatFacade.get_history (f : ChatFacade) : List (String × Dyn) :=
  f.history

/-- `ChatFacade.clear_history`: `self.history.clear()`. -/
def ChatFacade.clear_history (f : ChatFacade) : ChatFacade :=
  { f with history := [] }

/-- `ChatFacade.__init__`: fixed registry, pre-constructed strategies, a
context around the text strategy, an interactive model selection (its
console input is the parameter `chosen`; a ValueError aborts construction)
and an empty history. -/
def ChatFacade.init (api_key chosen : String) : Except String ChatFacade :=
  let f0 : ChatFacade :=
    { api_key := api_key
      models := initModels
      text_strategy := ⟨api_key⟩
      image_strategy := ⟨api_key⟩
      request_context := ⟨RequestStrategy.text ⟨api_key⟩⟩
      model := ""
      history := [] }
  match (f0.select_model chosen).1 with
  | Except.error e => Except.error e
  | Except.ok m => Except.ok { f0 with model := m }

/-- The arguments of one `ask_question` call. -/
structure AskInput where
  text : String
  model : String
  image_path : Option String

/-- The two history entries one `ask_question` call appends for prompt
`text` and response `r`. -/
def pairEntries (text : String) (r : Dyn) : List (String × Dyn) :=
  [(text, Dyn.msg "user" (Content.str text)), (text, r)]

/-- Runs a sequence of `ask_question` calls, returning the final session
state and the responses in call order. -/
def ChatFacade.runAsks (f : ChatFacade) (complete : Complete) (readFile : ReadFile) :
    List AskInput → ChatFacade × List Dyn
  | [] => (f, [])
  | inp :: rest =>
      let step := f.ask_question complete readFile inp.text inp.model inp.image_path
      let next := step.2.runAsks complete readFile rest
      (next.1, step.1 :: next.2)

/-- A concrete session used to instantiate hypotheses: the state
`ChatFacade.init` produces for key k and chosen model
mistral-large-latest. -/
def sampleFacade : ChatFacade :=
  { api_key := "k"
    models := initModels
    text_strategy := ⟨"k"⟩
    image_strategy := ⟨"k"⟩
    request_context := ⟨RequestStrategy.text ⟨"k"⟩⟩
    model := "mistral-large-latest"
    history := [] }

/-- C2: for every prior history list and prompt, `TextRequestStrategy.execute`
sends the transport message list made of every prior history message in order
followed by one new user message, drops and reorders nothing, wraps the
endpoint reply as an assistant message, and issues exactly one outbound
call. -/
theorem text_execute_builds_history_then_user (s : TextRequestStrategy)
    (complete : Complete) (text model : String) (h : List Dyn)
    (image_path : Option String) :
    s.execute complete text model (some h) image_path =
      { result := Dyn.msg "assistant" (Content.str
          (complete model (h ++ [Dyn.msg "user" (Content.str text)])))
        outboundCalls := 1
        historyAfter := some h } := by
  cases h <;> rfl

/-- C3: every `ask_question` call appends exactly two history entries tagged
with the originating prompt — the user message, then the result returned by
the strategy — whatever that result is (success or reported fault). -/
theorem ask_question_appends_two_entries (f : ChatFacade) (complete : Complete)
    (readFile : ReadFile) (text model : String) (image_path : Option String) :
    (f.ask_question complete readFile text model image_path).2.history =
      f.history ++
        [(text, Dyn.msg "user" (Content.str text)),
         (text, (f.ask_question complete readFile text model image_path).1)] := rfl

/-- C4 counterexample: calling `TextRequestStrategy.execute` with an empty
model identifier does not fail — it issues the outbound request and returns
the endpoint reply as an assistant message, not a fault. -/
theorem text_execute_empty_model_counterexample :
    ((TextRequestStrategy.mk "k").execute (fun _ _ => "reply") "q" ""
        (some []) none).outboundCalls = 1 ∧
    ((TextRequestStrategy.mk "k").execute (fun _ _ => "reply") "q" ""
        (some []) none).result = Dyn.msg "assistant" (Content.str "reply") := by
  exact ⟨rfl, rfl⟩

/-- C4 amended: `TextRequestStrategy.execute` performs no validation of the
model identifier; with an empty model it still issues exactly one outbound
request, passing the empty model and the usual message list to the endpoint,
and returns the reply as an assistant message. -/
theorem text_execute_empty_model_proceeds (s : TextRequestStrategy)
    (complete : Complete) (text : String) (h : List Dyn)
    (image_path : Option String) :
    s.execute complete text "" (some h) image_path =
      { result := Dyn.msg "assistant" (Content.str
          (complete "" (h ++ [Dyn.msg "user" (Content.str text)])))
        outboundCalls := 1
        historyAfter := some h } := by
  cases h <;> rfl

/-- C5: `ImageRequestStrategy.execute` with an absent image path (None or
empty) returns the structured missing-image error result and performs no
outbound call. -/
theorem image_execute_missing_path (s : ImageRequestStrategy)
    (complete : Complete) (readFile : ReadFile) (text model : String)
    (history : Option (List Dyn)) (image_path : Option String)
    (h : image_path = none ∨ image_path = some "") :
    s.execute complete readFile text model history image_path =
      { result := Dyn.err "Image path is required for ImageRequestStrategy."
        outboundCalls := 0
        historyAfter := history } := by
  rcases h with h | h <;> subst h
  · rfl
  · simp [ImageRequestStrategy.execute]

/-- C5 witness: a concrete call with `image_path = none`. -/
theorem image_execute_missing_path_witness :
    ((none : Option String) = none ∨ (none : Option String) = some "") ∧
    (ImageRequestStrategy.mk "k").execute (fun _ _ => "r") (fun _ => none)
        "t" "m" (some []) none =
      { result := Dyn.err "Image path is required for ImageRequestStrategy."
        outboundCalls := 0
        historyAfter := some [] } :=
  ⟨Or.inl rfl,
   image_execute_missing_path (ImageRequestStrategy.mk "k") (fun _ _ => "r")
     (fun _ => none) "t" "m" (some []) none (Or.inl rfl)⟩

/-- C8: `clear_history` empties the history (so `get_history` afterwards is
empty) and leaves the active model and the active strategy selection
unchanged. -/
theorem clear_history_empties_and_frames (f : ChatFacade) :
    f.clear_history.get_history = [] ∧
    f.clear_history.model = f.model ∧
    f.clear_history.request_context = f.request_context :=
  ⟨rfl, rfl, rfl⟩

/-- C9: no strategy `execute` call mutates the caller's history: for both
concrete strategies and every path, the history object after the call equals
the one passed in (the source only reads `history`; the message list it
mutates is freshly allocated). -/
theorem execute_does_not_mutate_history (s : RequestStrategy)
    (complete : Complete) (readFile : ReadFile) (text model : String)
    (history : Option (List Dyn)) (image_path : Option String) :
    (s.execute complete readFile text model history image_path).historyAfter =
      history := by
  cases s with
  | text ts => rfl
  | image is_ =>
      cases image_path with
      | none => rfl
      | some p =>
          simp only [RequestStrategy.execute, ImageRequestStrategy.execute]
          split
          · rfl
          · split
            · rfl
            · rfl

/-- C6: with a non-empty image path whose encoding is non-empty,
`ImageRequestStrategy.execute` sends a payload of exactly one user message
combining the text part and the encoded image part, includes no prior
history message, and issues exactly one outbound call. -/
theorem image_execute_single_user_message (s : ImageRequestStrategy)
    (complete : Complete) (readFile : ReadFile) (text model : String)
    (history : Option (List Dyn)) (p : String)
    (hp : p ≠ "") (henc : s.encode_image readFile p ≠ "") :
    s.execute complete readFile text model history (some p) =
      { result := Dyn.msg "assistant" (Content.str (complete model
          [Dyn.msg "user" (Content.parts
            [Part.text text,
             Part.image_url ("data:image/jpeg;base64," ++
               s.encode_image readFile p)])]))
        outboundCalls := 1
        historyAfter := history } := by
  simp [ImageRequestStrategy.execute, hp, henc]

/-- C6 witness: a concrete one-byte image file, arbitrary prior history. -/
theorem image_execute_single_user_message_witness :
    ("a.png" ≠ "") ∧
    ((ImageRequestStrategy.mk "k").encode_image (fun _ => some [0]) "a.png" ≠ "") ∧
    (ImageRequestStrategy.mk "k").execute (fun _ _ => "r") (fun _ => some [0])
        "t" "m" (some [Dyn.msg "user" (Content.str "old")]) (some "a.png") =
      { result := Dyn.msg "assistant" (Content.str "r")
        outboundCalls := 1
        historyAfter := some [Dyn.msg "user" (Content.str "old")] } :=
  ⟨by decide, by decide,
   image_execute_single_user_message (ImageRequestStrategy.mk "k")
     (fun _ _ => "r") (fun _ => some [0]) "t" "m"
     (some [Dyn.msg "user" (Content.str "old")]) "a.png" (by decide) (by decide)⟩

/-- C10: with a non-empty image path whose file is missing or unreadable
(the read raises) or readable but zero bytes long, the encoding step yields
the empty string and `ImageRequestStrategy.execute` returns the structured
encoding-failure error result without raising and performs no outbound
call. -/
theorem image_execute_encode_failure (s : ImageRequestStrategy)
    (complete : Complete) (readFile : ReadFile) (text model : String)
    (history : Option (List Dyn)) (p : String)
    (hp : p ≠ "") (h : readFile p = none ∨ readFile p = some []) :
    s.encode_image readFile p = "" ∧
    s.execute complete readFile text model history (some p) =
      { result := Dyn.err "Failed to encode image."
        outboundCalls := 0
        historyAfter := history } := by
  have henc : s.encode_image readFile p = "" := by
    rcases h with h | h <;> simp [ImageRequestStrategy.encode_image, h, b64encode,
      b64encodeGroups]
  refine ⟨henc, ?_⟩
  simp [ImageRequestStrategy.execute, hp, henc]

/-- C10 witness: a readable but empty image file is reported as an encoding
failure. -/
theorem image_execute_encode_failure_witness :
    ("a.png" ≠ "") ∧
    ((fun _ => some ([] : List Nat)) "a.png" = none ∨
     (fun _ => some ([] : List Nat)) "a.png" = some []) ∧
    ((ImageRequestStrategy.mk "k").encode_image (fun _ => some []) "a.png" = "" ∧
     (ImageRequestStrategy.mk "k").execute (fun _ _ => "r") (fun _ => some [])
        "t" "m" (some []) (some "a.png") =
      { result := Dyn.err "Failed to encode image."
        outboundCalls := 0
        historyAfter := some [] }) :=
  ⟨by decide, Or.inr rfl,
   image_execute_encode_failure (ImageRequestStrategy.mk "k") (fun _ _ => "r")
     (fun _ => some []) "t" "m" (some []) "a.png" (by decide) (Or.inr rfl)⟩

/-- C7: when the chosen identifier is not in the registry list for the
active strategy kind, `select_model` raises ValueError and leaves the
session — in particular its active model — unchanged. -/
theorem select_model_invalid_fails_and_frames (f : ChatFacade) (chosen : String)
    (h : chosen ∉ f.models (modelTypeOf f.request_context)) :
    f.select_model chosen = (Except.error "Неверная модель", f) := by
  simp only [ChatFacade.select_model, if_pos h]

/-- C7 witness: choosing an identifier outside the text registry on the
sample session. -/
theorem select_model_invalid_fails_and_frames_witness :
    ("bogus" ∉ sampleFacade.models (modelTypeOf sampleFacade.request_context)) ∧
    sampleFacade.select_model "bogus" = (Except.error "Неверная модель", sampleFacade) :=
  ⟨by decide,
   select_model_invalid_fails_and_frames sampleFacade "bogus" (by decide)⟩

/-- Each run produces exactly one response per call. -/
theorem runAsks_length (complete : Complete) (readFile : ReadFile)
    (inputs : List AskInput) (f : ChatFacade) :
    (f.runAsks complete readFile inputs).2.length = inputs.length := by
  induction inputs generalizing f with
  | nil => rfl
  | cons inp rest ih =>
      simp only [ChatFacade.runAsks, List.length_cons]
      rw [ih]

/-- The final history of a run is the starting history followed by, for each
call in order, the user entry and the response entry of that call. -/
theorem runAsks_history (complete : Complete) (readFile : ReadFile)
    (inputs : List AskInput) (f : ChatFacade) :
    (f.runAsks complete readFile inputs).1.history =
      f.history ++
        ((inputs.zip (f.runAsks complete readFile inputs).2).map
          (fun q => pairEntries q.1.text q.2)).flatten := by
  induction inputs generalizing f with
  | nil => simp [ChatFacade.runAsks]
  | cons inp rest ih =>
      simp only [ChatFacade.runAsks]
      rw [ih]
      simp [ChatFacade.ask_question, pairEntries, List.zip_cons_cons]

/-- Any response a strategy produces is either a structured error result or
an assistant-role message. -/
theorem execute_result_shape (s : RequestStrategy) (complete : Complete)
    (readFile : ReadFile) (text model : String) (history : Option (List Dyn))
    (image_path : Option String) :
    (∃ e, (s.execute complete readFile text model history image_path).result =
        Dyn.err e) ∨
    ∃ c, (s.execute complete readFile text model history image_path).result =
        Dyn.msg "assistant" c := by
  cases s with
  | text ts => exact Or.inr ⟨_, rfl⟩
  | image is_ =>
      cases image_path with
      | none => exact Or.inl ⟨_, rfl⟩
      | some p =>
          simp only [RequestStrategy.execute, ImageRequestStrategy.execute]
          split
          · exact Or.inl ⟨_, rfl⟩
          · split
            · exact Or.inl ⟨_, rfl⟩
            · exact Or.inr ⟨_, rfl⟩

/-- Every response of a run is either an error result or an assistant-role
message. -/
theorem runAsks_results_shape (complete : Complete) (readFile : ReadFile)
    (inputs : List AskInput) (f : ChatFacade) :
    ∀ r ∈ (f.runAsks complete readFile inputs).2,
      (∃ e, r = Dyn.err e) ∨ ∃ c, r = Dyn.msg "assistant" c := by
  induction inputs generalizing f with
  | nil => intro r hr; cases hr
  | cons inp rest ih =>
      intro r hr
      simp only [ChatFacade.runAsks, List.mem_cons] at hr
      rcases hr with hr | hr
      · subst hr
        exact execute_result_shape _ complete readFile inp.text inp.model _
          inp.image_path
      · exact ih _ r hr

/-- A list of two-entry chunks, one chunk per element, flattens to twice as
many entries. -/
theorem flatten_pairEntries_length (l : List (AskInput × Dyn)) :
    ((l.map (fun q => pairEntries q.1.text q.2)).flatten).length = 2 * l.length := by
  induction l with
  | nil => rfl
  | cons x xs ih =>
      rw [List.map_cons, List.flatten_cons, List.length_append, ih]
      simp only [pairEntries, List.length_cons, List.length_nil]
      omega

/-- C1: after any sequence of successful `ask_question` calls on a session
that starts with empty history, `get_history` has length twice the number of
calls and is exactly, in strict call order, the user entry then the
assistant entry of each call: every user-authored message has role user and
every successful response is an assistant-role message. -/
theorem history_alternates_user_assistant (complete : Complete)
    (readFile : ReadFile) (f : ChatFacade) (inputs : List AskInput)
    (h0 : f.history = [])
    (hs : ∀ r ∈ (f.runAsks complete readFile inputs).2, r.isSuccess = true) :
    (f.runAsks complete readFile inputs).1.get_history.length =
        2 * inputs.length ∧
    (f.runAsks complete readFile inputs).1.get_history =
      ((inputs.zip (f.runAsks complete readFile inputs).2).map
        (fun q => pairEntries q.1.text q.2)).flatten ∧
    ∀ r ∈ (f.runAsks complete readFile inputs).2,
      ∃ c, r = Dyn.msg "assistant" c := by
  have hhist : (f.runAsks complete readFile inputs).1.get_history =
      ((inputs.zip (f.runAsks complete readFile inputs).2).map
        (fun q => pairEntries q.1.text q.2)).flatten := by
    have := runAsks_history complete readFile inputs f
    simpa [ChatFacade.get_history, h0] using this
  refine ⟨?_, hhist, ?_⟩
  · have hzip : (inputs.zip (f.runAsks complete readFile inputs).2).length =
        inputs.length := by
      rw [List.length_zip, runAsks_length]
      exact Nat.min_self _
    rw [hhist, flatten_pairEntries_length, hzip]
  · intro r hr
    rcases runAsks_results_shape complete readFile inputs f r hr with ⟨e, he⟩ | hok
    · exfalso
      have := hs r hr
      rw [he] at this
      simp [Dyn.isSuccess] at this
    · exact hok

/-- C1 witness: one successful text-strategy call on the sample session. -/
theorem history_alternates_user_assistant_witness :
    sampleFacade.history = [] ∧
    (∀ r ∈ (sampleFacade.runAsks (fun _ _ => "ok") (fun _ => none)
        [⟨"hello", "mistral-large-latest", none⟩]).2, r.isSuccess = true) ∧
    ((sampleFacade.runAsks (fun _ _ => "ok") (fun _ => none)
        [⟨"hello", "mistral-large-latest", none⟩]).1.get_history.length =
      2 * [(⟨"hello", "mistral-large-latest", none⟩ : AskInput)].length ∧
     (sampleFacade.runAsks (fun _ _ => "ok") (fun _ => none)
        [⟨"hello", "mistral-large-latest", none⟩]).1.get_history =
      (([(⟨"hello", "mistral-large-latest", none⟩ : AskInput)].zip
          (sampleFacade.runAsks (fun _ _ => "ok") (fun _ => none)
            [⟨"hello", "mistral-large-latest", none⟩]).2).map
        (fun q => pairEntries q.1.text q.2)).flatten ∧
     ∀ r ∈ (sampleFacade.runAsks (fun _ _ => "ok") (fun _ => none)
        [⟨"hello", "mistral-large-latest", none⟩]).2,
       ∃ c, r = Dyn.msg "assistant" c) :=
  ⟨rfl, by decide,
   history_alternates_user_assistant (fun _ _ => "ok") (fun _ => none)
     sampleFacade [⟨"hello", "mistral-large-latest", none⟩] rfl (by decide)⟩

end StrategyPy
